import Mathlib

/-!
Shallow embedding of `src/lib/microtcp.c` (microTCP, a teaching TCP clone over
UDP datagrams).  Byte buffers are `List Nat` with each entry below 256; all
32-bit and 16-bit machine integers are `Nat` reduced modulo `2^32` / `2^16`
where the C code would overflow.  Network I/O, `rand()`, and the contents of
uninitialized memory are supplied by explicit environment records, so every
function of the source becomes a pure Lean function of its socket state and
its environment.
-/

/-- Connection states.  Modelled from the spec and the states named in
`src/lib/microtcp.c` (`microtcp.h` itself is not under `src/`). -/
inductive microtcp_state_t where
  | UNKNOWN
  | ESTABLISHED
  | CLOSING_BY_PEER
  | CLOSING_BY_HOST
  | CLOSED
  | INVALID
deriving DecidableEq, Repr

/-- Peer address, standing in for `struct sockaddr`: an address family plus
the `sa_data` bytes.  `is_equal_addresses` compares exactly these two parts. -/
structure sockaddr where
  sa_family : Nat
  sa_data : List Nat
deriving DecidableEq, Repr

/-- Flag bit positions in the 16-bit control word.  Modelled from the spec
(`microtcp.h` is not under `src/`): bit0=ACK, bit1=RST, bit2=SYN, bit3=FIN. -/
def ACK_F : Nat := 0

/-- Bit position of RST in the control word. -/
def RST_F : Nat := 1

/-- Bit position of SYN in the control word. -/
def SYN_F : Nat := 2

/-- Bit position of FIN in the control word. -/
def FIN_F : Nat := 3

/-- Advertised window size constant.  Modelled from the spec (`microtcp.h` is
not under `src/`); no claim depends on its numeric value. -/
def MICROTCP_WIN_SIZE : Nat := 8192

/-- The `SHUT_RDWR` constant of `<sys/socket.h>` (value 2 on POSIX systems). -/
def SHUT_RDWR : Int := 2

/-- Source `set_bit` (microtcp.c:66-69): returns `data` with bit `pos` set. -/
def set_bit (data : Nat) (pos : Nat) : Nat :=
  data ||| (1 <<< pos)

/-- Source `get_bit` (microtcp.c:72-75): 0 if bit `pos` of `data` is clear,
nonzero otherwise. -/
def get_bit (data : Nat) (pos : Nat) : Nat :=
  (data >>> pos) &&& 1

/-- The segment header, fields in host order.  Mirrors `microtcp_header_t`:
seq(32) | ack(32) | control(16) | window(16) | data_len(32) | three reserved
32-bit words | checksum(32). -/
structure microtcp_header_t where
  seq_number : Nat
  ack_number : Nat
  control : Nat
  window : Nat
  data_len : Nat
  future_use0 : Nat
  future_use1 : Nat
  future_use2 : Nat
  checksum : Nat
deriving DecidableEq, Repr

/-- `htonl`: the four bytes of a 32-bit value in network (big-endian) order. -/
def htonl (n : Nat) : List Nat :=
  [n / 2 ^ 24 % 256, n / 2 ^ 16 % 256, n / 2 ^ 8 % 256, n % 256]

/-- `htons`: the two bytes of a 16-bit value in network (big-endian) order. -/
def htons (n : Nat) : List Nat :=
  [n / 2 ^ 8 % 256, n % 256]

/-- The 32 bytes of a header struct in memory after the `htonl`/`htons`
conversions of `make_header`, i.e. what `(uint8_t *)(&header)` exposes. -/
def header_bytes (h : microtcp_header_t) : List Nat :=
  htonl h.seq_number ++ htonl h.ack_number ++ htons h.control ++ htons h.window
    ++ htonl h.data_len ++ htonl h.future_use0 ++ htonl h.future_use1
    ++ htonl h.future_use2 ++ htonl h.checksum

/-- `ntohl` applied to the four buffer bytes at offset `i` (missing bytes read
as 0; every buffer a claim touches has all 32 header bytes present). -/
def ntohl_at (buf : List Nat) (i : Nat) : Nat :=
  buf.getD i 0 * 2 ^ 24 + buf.getD (i + 1) 0 * 2 ^ 16
    + buf.getD (i + 2) 0 * 2 ^ 8 + buf.getD (i + 3) 0

/-- `ntohs` applied to the two buffer bytes at offset `i`. -/
def ntohs_at (buf : List Nat) (i : Nat) : Nat :=
  buf.getD i 0 * 2 ^ 8 + buf.getD (i + 1) 0

/-- One bit step of CRC-32: shift right, xor the reflected polynomial when the
low bit was set. -/
def crc32_step (c : Nat) : Nat :=
  if c % 2 = 1 then (c / 2) ^^^ 0xEDB88320 else c / 2

/-- Fold one byte into a CRC-32 accumulator. -/
def crc32_byte (c : Nat) (b : Nat) : Nat :=
  Nat.iterate crc32_step 8 (c ^^^ b % 256)

/-- Modelled from the spec: the checksum is "consumed as an external pure
function `crc32(bytes) -> uint32`" (`src/utils/crc32.h` is not under `src/`),
"a 32-bit cyclic redundancy check" — the standard reflected CRC-32 with
polynomial 0xEDB88320 and initial value / final xor 0xFFFFFFFF. -/
def crc32 (buf : List Nat) : Nat :=
  (buf.foldl crc32_byte 0xFFFFFFFF) ^^^ 0xFFFFFFFF

/-- Source `make_header` (microtcp.c:77-100): populate every field in network
order with the checksum field zero, then store `crc32` of the struct bytes in
the checksum field.  The source calls `set_bit(tmp_control, ACK_F)` etc. for
each requested flag but discards the returned value, so `tmp_control` keeps
its initial value 0 whatever the four flag arguments are. -/
def make_header (seq_number ack_number window data_len : Nat)
    (ACK RST SYN FIN : Bool) : microtcp_header_t :=
  let tmp_control : Nat := 0
  let header : microtcp_header_t :=
    { seq_number := seq_number % 2 ^ 32
      ack_number := ack_number % 2 ^ 32
      control := tmp_control
      window := window % 2 ^ 16
      data_len := data_len % 2 ^ 32
      future_use0 := 0
      future_use1 := 0
      future_use2 := 0
      checksum := 0 }
  { header with checksum := crc32 (header_bytes header) }

/-- Source `get_hbo_header` (microtcp.c:103-118): reinterpret a received
buffer as a header and convert every field to host byte order. -/
def get_hbo_header (buf : List Nat) : microtcp_header_t :=
  { seq_number := ntohl_at buf 0
    ack_number := ntohl_at buf 4
    control := ntohs_at buf 8
    window := ntohs_at buf 10
    data_len := ntohl_at buf 12
    future_use0 := ntohl_at buf 16
    future_use1 := ntohl_at buf 20
    future_use2 := ntohl_at buf 24
    checksum := ntohl_at buf 28 }

/-- Source `is_header_control_valid` (microtcp.c:121-133): false when a
required flag bit is clear in the header's control word, true otherwise. -/
def is_header_control_valid (hbo_header : microtcp_header_t)
    (ACK RST SYN FIN : Bool) : Bool :=
  if ACK && (get_bit hbo_header.control ACK_F == 0) then false
  else if RST && (get_bit hbo_header.control RST_F == 0) then false
  else if SYN && (get_bit hbo_header.control SYN_F == 0) then false
  else if FIN && (get_bit hbo_header.control FIN_F == 0) then false
  else true

/-- Source `is_equal_addresses` (microtcp.c:135-142): same family and same
`sa_data` (the source compares `sa_data` with `strcmp`). -/
def is_equal_addresses (a b : sockaddr) : Bool :=
  a.sa_family == b.sa_family && a.sa_data == b.sa_data

/-- Source `is_checksum_valid` (microtcp.c:149-166).  The source mallocs
`msg_len` bytes for `tmp_header` but then copies `size = 0` bytes into it, so
the `received_checksum` it reads is an indeterminate value from uninitialized
memory — supplied here as `tmp_header_junk`.  The `calculated_checksum` is
`crc32` over the first `msg_len` bytes of `recv_buf` with no field zeroed.
Both sides of the source's comparison pass through `ntohl`, a bijection, so
the comparison is modelled on the unswapped values. -/
def is_checksum_valid (tmp_header_junk : Nat) (recv_buf : List Nat)
    (msg_len : Nat) : Bool :=
  let received_checksum := tmp_header_junk
  let calculated_checksum := crc32 (recv_buf.take msg_len)
  received_checksum == calculated_checksum

/-- Follows the spec's words, for comparison with the source's
`is_checksum_valid`: "recomputes the checksum over the received bytes with
the checksum field zeroed and compares to the transmitted value". -/
def verify_checksum_spec (buf : List Nat) : Bool :=
  ntohl_at buf 28 == crc32 (buf.take 28 ++ [0, 0, 0, 0])

/-- The connection, mirroring `microtcp_sock_t`.  `recvbuf` holds the bytes
currently behind the `recvbuf` pointer. -/
structure microtcp_sock_t where
  sd : Int
  state : microtcp_state_t
  init_win_size : Nat
  curr_win_size : Nat
  recvbuf : List Nat
  buf_fill_level : Nat
  seq_number : Nat
  ack_number : Nat
  packets_send : Nat
  packets_received : Nat
  packets_lost : Nat
  bytes_send : Nat
  bytes_received : Nat
  bytes_lost : Nat
  address : sockaddr
  address_len : Nat
deriving DecidableEq, Repr

/-- Environment of one `microtcp_connect` call: the `rand()` value, the
outcome of each `sendto`, the datagram with which the address-matching
receive loop exits, and the indeterminate memory the source reads. -/
structure connect_env where
  isn : Nat
  syn_sent_all : Bool
  reply_buf : List Nat
  reply_ret : Int
  recvbuf0 : List Nat
  chk_junk : Nat
  malloc_buf : List Nat
  ack_sent_all : Bool
deriving DecidableEq, Repr

/-- Source `microtcp_connect` (microtcp.c:169-245), as a pure function of the
socket and its environment; returns the final socket paired with the `int`
the function returns.  `env.isn` is the `rand()` result; `env.syn_sent_all`
and `env.ack_sent_all` say whether each `sendto` reported all 32 header bytes
sent; `env.reply_buf`/`env.reply_ret` are the datagram and `recvfrom` result
with which the loop over `is_equal_addresses` exits.  The checksum check at
line 211 runs over `socket->recvbuf`, a pointer no statement has assigned
yet — `env.recvbuf0` is the indeterminate memory behind it — and
`env.malloc_buf` is the content of the buffer malloc'd at line 227.  At line
206 the source reads `socket->state = ;`, naming no state; modelled from the
spec: a missing response during the handshake is fatal, so that branch sets
`INVALID`. -/
def microtcp_connect (socket : microtcp_sock_t) (address : sockaddr)
    (address_len : Nat) (env : connect_env) : microtcp_sock_t × Int :=
  let socket := { socket with seq_number := env.isn % 2 ^ 32 }
  let syn := make_header socket.seq_number 0 0 0 false false true false
  if env.syn_sent_all = false then
    ({ socket with state := .INVALID }, socket.sd)
  else
  let socket := { socket with
      seq_number := (socket.seq_number + 1) % 2 ^ 32
      packets_send := socket.packets_send + 1
      bytes_send := socket.bytes_send + (header_bytes syn).length }
  let synack := get_hbo_header env.reply_buf
  if env.reply_ret ≤ 0 then
    ({ socket with state := .INVALID }, socket.sd)
  else if is_checksum_valid env.chk_junk env.recvbuf0 env.reply_ret.toNat
      = false then
    ({ socket with state := .INVALID }, socket.sd)
  else if is_header_control_valid synack true false true false = false
      ∨ synack.ack_number ≠ socket.seq_number then
    ({ socket with state := .INVALID }, socket.sd)
  else
  let socket := { socket with
      address := address
      address_len := address_len
      recvbuf := env.malloc_buf
      state := .ESTABLISHED
      ack_number := (synack.seq_number + 1) % 2 ^ 32 }
  let ack := make_header socket.seq_number socket.ack_number
      MICROTCP_WIN_SIZE 0 true false false false
  if env.ack_sent_all = false then
    ({ socket with state := .INVALID }, socket.sd)
  else
  ({ socket with seq_number := (socket.seq_number + 1) % 2 ^ 32 }, socket.sd)

/-- Environment of one `microtcp_accept` call: contents of the malloc'd
receive buffer, the datagram with which the SYN admission loop exits, the
`rand()` value, the `sendto` outcome, the datagram with which the second
(address-matching) loop exits, the indeterminate checksum reads, and the
memory the out-of-bounds crc at line 322 walks over. -/
structure accept_env where
  malloc_buf : List Nat
  syn_buf : List Nat
  syn_ret : Int
  chk1_junk : Nat
  isn : Nat
  src_addr : sockaddr
  src_addr_len : Nat
  synack_sent_all : Bool
  ack_buf : List Nat
  ack_ret : Int
  chk2_junk : Nat
  recv_fn_addr : Nat
  oob : List Nat
deriving DecidableEq, Repr

/-- Source `microtcp_accept` (microtcp.c:250-339) as a pure function.  The
admission loop keeps receiving into `socket->recvbuf` until the decoded
header passes the SYN flag check; `env.syn_buf`/`env.syn_ret` are the buffer
contents and `recvfrom` result at loop exit (theorems about real executions
hypothesise that `env.syn_buf` decodes to a header with the SYN bit set).
Line 284 sets `socket->ack_number = syn.ack_number + 1` — the received ack
field, not the sequence field.  At line 322 the source passes the function
`recv` itself as `msg_len`: the crc then runs over `recv_fn_addr` (the
pointer's value as a `size_t`) bytes starting at `recvbuf`, reading past the
buffer into adjacent memory `env.oob`. -/
def microtcp_accept (socket : microtcp_sock_t) (env : accept_env) :
    microtcp_sock_t × Int :=
  let socket := { socket with
      recvbuf := env.malloc_buf
      buf_fill_level := 0
      init_win_size := MICROTCP_WIN_SIZE
      curr_win_size := MICROTCP_WIN_SIZE }
  let socket := { socket with recvbuf := env.syn_buf }
  let syn := get_hbo_header env.syn_buf
  if is_checksum_valid env.chk1_junk env.syn_buf env.syn_ret.toNat
      = false then
    ({ socket with state := .INVALID }, socket.sd)
  else
  let socket := { socket with
      seq_number := env.isn % 2 ^ 32
      ack_number := (syn.ack_number + 1) % 2 ^ 32
      init_win_size := syn.window
      curr_win_size := syn.window
      address := env.src_addr
      address_len := env.src_addr_len }
  let synack := make_header socket.seq_number socket.ack_number
      MICROTCP_WIN_SIZE 0 true false true false
  if env.synack_sent_all = false then
    ({ socket with state := .INVALID }, socket.sd)
  else
  let socket := { socket with
      seq_number := (socket.seq_number + 1) % 2 ^ 32
      bytes_send := socket.bytes_send + (header_bytes synack).length
      packets_send := socket.packets_send + 1 }
  let socket := { socket with recvbuf := env.ack_buf }
  if env.ack_ret ≤ 0 then
    ({ socket with state := .INVALID }, socket.sd)
  else
  let ack := get_hbo_header env.ack_buf
  if is_checksum_valid env.chk2_junk (env.ack_buf ++ env.oob)
      env.recv_fn_addr = false then
    ({ socket with state := .INVALID }, socket.sd)
  else
  if is_header_control_valid ack true false false false = false then
    ({ socket with state := .INVALID }, socket.sd)
  else
  ({ socket with
      state := .ESTABLISHED
      ack_number := (ack.seq_number + 1) % 2 ^ 32 }, socket.sd)

/-- Environment of one `microtcp_shutdown` call: `sendto` outcomes and, for
each of the two `recvfrom`s, the datagram, its length, the source address it
writes over `socket->address`, and the validator's indeterminate read. -/
structure shutdown_env where
  finack_sent_all : Bool
  addr1 : sockaddr
  addr1_len : Nat
  ack_buf : List Nat
  ack_ret : Int
  chk1_junk : Nat
  addr2 : sockaddr
  addr2_len : Nat
  finack_buf : List Nat
  finack_ret : Int
  chk2_junk : Nat
  ack2_sent_ok : Bool
deriving DecidableEq, Repr

/-- Source `microtcp_shutdown` (microtcp.c:341-448) as a pure function.  The
whole body runs only when `how == SHUT_RDWR`.  Both `recvfrom` calls pass
`&socket->address` as the source-address out-parameter, overwriting the
stored peer address with `env.addr1`/`env.addr2`.  The final `free` of the
receive buffer is modelled by emptying `recvbuf`.  `env.ack2_sent_ok` is the
check `ret < 0` of the last `sendto` (the other sends check `!= sizeof`). -/
def microtcp_shutdown (socket : microtcp_sock_t) (how : Int)
    (env : shutdown_env) : microtcp_sock_t × Int :=
  if how = SHUT_RDWR then
    let finack := make_header socket.seq_number socket.ack_number
        MICROTCP_WIN_SIZE 0 true false false true
    if env.finack_sent_all = false then
      ({ socket with state := .INVALID }, socket.sd)
    else
    let socket := { socket with
        recvbuf := env.ack_buf
        address := env.addr1
        address_len := env.addr1_len }
    if env.ack_ret ≤ 0 then
      ({ socket with state := .INVALID }, socket.sd)
    else
    if is_checksum_valid env.chk1_junk env.ack_buf env.ack_ret.toNat
        = false then
      ({ socket with state := .INVALID }, socket.sd)
    else
    let ack := get_hbo_header env.ack_buf
    if ack.seq_number ≠ socket.ack_number ∨ ack.ack_number ≠ socket.seq_number
        ∨ is_header_control_valid ack true false false false = false then
      ({ socket with state := .INVALID }, socket.sd)
    else
    let socket := { socket with seq_number := (socket.seq_number + 1) % 2 ^ 32 }
    if socket.state ≠ .CLOSING_BY_PEER then
      let socket := { socket with state := .CLOSING_BY_HOST }
      let socket := { socket with
          recvbuf := env.finack_buf
          address := env.addr2
          address_len := env.addr2_len }
      if env.finack_ret ≤ 0 then
        ({ socket with state := .INVALID }, socket.sd)
      else
      if is_checksum_valid env.chk2_junk env.finack_buf env.finack_ret.toNat
          = false then
        ({ socket with state := .INVALID }, socket.sd)
      else
      let finack2 := get_hbo_header env.finack_buf
      if finack2.ack_number ≠ socket.seq_number
          ∨ is_header_control_valid finack2 true false false true = false then
        ({ socket with state := .INVALID }, socket.sd)
      else
      let socket := { socket with
          ack_number := (finack2.seq_number + 1) % 2 ^ 32 }
      let ack2 := make_header socket.seq_number socket.ack_number
          MICROTCP_WIN_SIZE 0 true false false false
      if env.ack2_sent_ok = false then
        ({ socket with state := .INVALID }, socket.sd)
      else
      ({ socket with state := .CLOSED, recvbuf := [] }, socket.sd)
    else
      ({ socket with state := .CLOSED, recvbuf := [] }, socket.sd)
  else
    (socket, socket.sd)

/-- Modelled from the spec: `microtcp_send` in `src/lib/microtcp.c` has only
the placeholder body `/* Your code here */`, so the sender's
unacknowledged-segment set is modelled from §3/§4.4 of the spec: each entry
carries a sequence range, payload, send timestamp and retransmit count. -/
structure unacked_segment where
  seq_first : Nat
  seq_next : Nat
  payload : List Nat
  sent_at : Nat
  retransmit_count : Nat
deriving DecidableEq, Repr

/-- Modelled from the spec (§4.4): "On receipt of an ACK whose acknowledgment
number advances past previously-sent sequence numbers, all fully-acknowledged
entries are purged from the unacknowledged set (cumulative acknowledgment)".
One call removes every entry whose sequence range ends at or before the
acknowledged number. -/
def purge_acked (unacked : List unacked_segment) (ack_number : Nat) :
    List unacked_segment :=
  unacked.filter (fun seg => decide (ack_number < seg.seq_next))

/-- Concrete peer address used by the scenario theorems. -/
def addr0 : sockaddr :=
  { sa_family := 2, sa_data := [127, 0, 0, 1] }

/-- Concrete freshly-created socket used by the scenario theorems. -/
def sock0 : microtcp_sock_t :=
  { sd := 3
    state := .UNKNOWN
    init_win_size := 0
    curr_win_size := 0
    recvbuf := []
    buf_fill_level := 0
    seq_number := 0
    ack_number := 0
    packets_send := 0
    packets_received := 0
    packets_lost := 0
    bytes_send := 0
    bytes_received := 0
    bytes_lost := 0
    address := addr0
    address_len := 16 }

/-- The close initiator of the teardown scenario: established connection with
`seq_number = 101` and `ack_number = 501`. -/
def sock_est101 : microtcp_sock_t :=
  { sock0 with state := .ESTABLISHED, seq_number := 101, ack_number := 501 }

/-- A SYN header as the spec's handshake scenario describes it: sequence 100,
acknowledgment 0, SYN bit (bit 2) set, checksum field zero. -/
def syn_hdr_c2 : microtcp_header_t :=
  { seq_number := 100
    ack_number := 0
    control := 4
    window := 1000
    data_len := 0
    future_use0 := 0
    future_use1 := 0
    future_use2 := 0
    checksum := 0 }

/-- Accept environment delivering `syn_hdr_c2` with a passing checksum check
and a failing SYN+ACK send, freezing the socket right after the SYN is
processed. -/
def env_c2 : accept_env :=
  { malloc_buf := []
    syn_buf := header_bytes syn_hdr_c2
    syn_ret := 32
    chk1_junk := crc32 (header_bytes syn_hdr_c2)
    isn := 500
    src_addr := addr0
    src_addr_len := 16
    synack_sent_all := false
    ack_buf := []
    ack_ret := 0
    chk2_junk := 0
    recv_fn_addr := 0
    oob := [] }

/-- An arbitrary incoming SYN: sequence 7777, acknowledgment 42, SYN bit set. -/
def syn_hdr_c3 : microtcp_header_t :=
  { syn_hdr_c2 with seq_number := 7777, ack_number := 42 }

/-- Accept environment delivering `syn_hdr_c3`, frozen after SYN processing. -/
def env_c3 : accept_env :=
  { env_c2 with
    syn_buf := header_bytes syn_hdr_c3
    chk1_junk := crc32 (header_bytes syn_hdr_c3) }

/-- A SYN+ACK reply as the initiator expects it (sequence 500, acknowledgment
101, ACK and SYN bits set) whose transmitted checksum field is 0 and hence
wrong for its bytes. -/
def synack_hdr_c5 : microtcp_header_t :=
  { seq_number := 500
    ack_number := 101
    control := 5
    window := 1000
    data_len := 0
    future_use0 := 0
    future_use1 := 0
    future_use2 := 0
    checksum := 0 }

/-- Connect environment: ISN 100, both sends succeed, the reply is
`synack_hdr_c5` (invalid checksum), and the unallocated `recvbuf` memory the
source actually checks happens to pass its comparison. -/
def env_c5 : connect_env :=
  { isn := 100
    syn_sent_all := true
    reply_buf := header_bytes synack_hdr_c5
    reply_ret := 32
    recvbuf0 := []
    chk_junk := 0
    malloc_buf := []
    ack_sent_all := true }

/-- The responder's ACK of the spec's teardown scenario: sequence 501,
acknowledgment 102, ACK bit set. -/
def ack_hdr_c6 : microtcp_header_t :=
  { seq_number := 501
    ack_number := 102
    control := 1
    window := 1000
    data_len := 0
    future_use0 := 0
    future_use1 := 0
    future_use2 := 0
    checksum := 0 }

/-- Shutdown environment delivering `ack_hdr_c6` with a passing checksum
check. -/
def env_c6 : shutdown_env :=
  { finack_sent_all := true
    addr1 := addr0
    addr1_len := 16
    ack_buf := header_bytes ack_hdr_c6
    ack_ret := 32
    chk1_junk := crc32 (header_bytes ack_hdr_c6)
    addr2 := addr0
    addr2_len := 16
    finack_buf := []
    finack_ret := 0
    chk2_junk := 0
    ack2_sent_ok := false }

/-- An ACK the source itself would accept (sequence 501, acknowledgment 101,
ACK bit set). -/
def ack_hdr_c8 : microtcp_header_t :=
  { ack_hdr_c6 with ack_number := 101 }

/-- Shutdown environment delivering `ack_hdr_c8` but with a checksum check
that fails (the comparison value differs from the computed crc). -/
def env_c8 : shutdown_env :=
  { env_c6 with
    ack_buf := header_bytes ack_hdr_c8
    chk1_junk := crc32 (header_bytes ack_hdr_c8) + 1 }

/-- Connect environment whose checksum check fails. -/
def env_c8w1 : connect_env :=
  { isn := 5
    syn_sent_all := true
    reply_buf := []
    reply_ret := 1
    recvbuf0 := []
    chk_junk := 1
    malloc_buf := []
    ack_sent_all := true }

/-- Accept environment whose first checksum check fails. -/
def env_c8w2 : accept_env :=
  { env_c2 with syn_buf := [], syn_ret := 0, chk1_junk := 1 }

/-- Shutdown environment whose checksum check fails. -/
def env_c8w3 : shutdown_env :=
  { env_c6 with ack_buf := [], ack_ret := 1, chk1_junk := 1 }

/-- Arbitrary concrete shutdown environment for the `how` frame theorem. -/
def env_c10 : shutdown_env :=
  { env_c6 with finack_sent_all := false }

set_option maxRecDepth 100000

example : crc32 [] = 0 := by decide
example : (make_header 0 0 0 0 false false false false).checksum =
    crc32 (List.replicate 32 0) := by decide

/-- Claim C1: for every header built by the encoder, verifying the checksum
of the encoded bytes succeeds.  The encoder does store the crc of the
zero-checksum bytes (first conjunct, the spec's own verification accepts its
output), but the source's `is_checksum_valid` rejects it: it computes the crc
over the encoded bytes without zeroing the checksum field — shown here with
its uninitialized received-checksum read taken to be exactly the transmitted
checksum, the most favorable value. -/
theorem C1_checksum_roundtrip_fails :
    verify_checksum_spec
        (header_bytes (make_header 0 0 0 0 false false false false)) = true
    ∧ is_checksum_valid
        (make_header 0 0 0 0 false false false false).checksum
        (header_bytes (make_header 0 0 0 0 false false false false)) 32
        = false := by
  constructor
  · decide
  · decide

/-- Claim C2: with ISNs 100 and 500 the handshake completes with
`send_next_seq`/`recv_next_seq` 101/501 and 501/101.  It does not: the SYN
that `microtcp_connect` emits carries control word 0 (flag bits discarded),
so the responder's SYN filter never admits it; the responder's own SYN+ACK
would equally fail the initiator's SYN+ACK filter; and even for an admitted
SYN(seq=100, ack=0) the responder sets `ack_number` to the SYN's
acknowledgment field plus one, i.e. 1 instead of 101. -/
theorem C2_handshake_scenario_fails :
    is_header_control_valid
        (get_hbo_header (header_bytes (make_header 100 0 0 0 false false true false)))
        false false true false = false
    ∧ is_header_control_valid
        (get_hbo_header (header_bytes
          (make_header 500 101 MICROTCP_WIN_SIZE 0 true false true false)))
        true false true false = false
    ∧ is_header_control_valid (get_hbo_header env_c2.syn_buf)
        false false true false = true
    ∧ (get_hbo_header env_c2.syn_buf).seq_number = 100
    ∧ (microtcp_accept sock0 env_c2).1.ack_number = 1
    ∧ (1 : Nat) ≠ 101 := by
  refine ⟨by decide, by decide, by decide, by decide, by decide, by decide⟩

/-- Claim C3: on a valid incoming SYN, `microtcp_accept` sets the
connection's `ack_number` to the SYN's sequence number plus one.  The source
(microtcp.c:284) instead adds one to the SYN's acknowledgment field: for a
SYN with sequence 7777 and acknowledgment 42 the resulting `ack_number` is
43, not 7778.  The environment freezes the socket right after the SYN is
processed (the SYN+ACK send fails), so the recorded value is the one this
assignment wrote. -/
theorem C3_ack_number_from_wrong_field :
    is_header_control_valid (get_hbo_header env_c3.syn_buf)
        false false true false = true
    ∧ (get_hbo_header env_c3.syn_buf).seq_number = 7777
    ∧ (get_hbo_header env_c3.syn_buf).ack_number = 42
    ∧ (microtcp_accept sock0 env_c3).1.ack_number = 43
    ∧ (43 : Nat) ≠ 7778 := by
  refine ⟨by decide, by decide, by decide, by decide, by decide⟩

/-- Claim C4: the encoded control word has exactly the requested flag bits
set.  It never has any bit set: `make_header` discards the values returned by
its four `set_bit` calls (microtcp.c:92-95), so the control word is 0 for
every flag combination; in particular bit 2 is clear when SYN=1 and bit 0 is
clear when ACK=1. -/
theorem C4_control_flags_never_set :
    (∀ (seq_number ack_number window data_len : Nat) (ACK RST SYN FIN : Bool),
        (make_header seq_number ack_number window data_len ACK RST SYN FIN).control = 0)
    ∧ get_bit (make_header 0 0 0 0 false false true false).control SYN_F = 0
    ∧ get_bit (make_header 0 0 0 0 true false false false).control ACK_F = 0 := by
  refine ⟨fun seq_number ack_number window data_len ACK RST SYN FIN => rfl,
    by decide, by decide⟩

/-- Claim C5: during `microtcp_connect`, a reply failing checksum validation
(or flag or acknowledgment mismatch) leads to `INVALID`.  The checksum leg is
broken: line 211 validates `socket->recvbuf` — a pointer nothing has assigned
at that point — instead of the received reply in `tmp_buf`, so a reply whose
own checksum is invalid (the spec's verification rejects `env_c5.reply_buf`)
but whose flags and acknowledgment are right still drives the connection to
`ESTABLISHED`. -/
theorem C5_bad_checksum_reply_establishes :
    verify_checksum_spec env_c5.reply_buf = false
    ∧ (microtcp_connect sock0 addr0 16 env_c5).1.state = .ESTABLISHED := by
  refine ⟨by decide, by decide⟩

/-- Claim C6: in the teardown scenario the initiator (seq 101) accepts the
responder's ACK carrying acknowledgment 102 and teardown ends `CLOSED`.  The
source checks `ack.ack_number != socket->seq_number` before incrementing
`seq_number` (microtcp.c:388), so it demands acknowledgment 101 and rejects
the scenario's ACK(seq=501, ack=102): the connection ends `INVALID`, not
`CLOSED`. -/
theorem C6_teardown_rejects_spec_ack :
    (get_hbo_header env_c6.ack_buf).seq_number = 501
    ∧ (get_hbo_header env_c6.ack_buf).ack_number = 102
    ∧ is_header_control_valid (get_hbo_header env_c6.ack_buf)
        true false false false = true
    ∧ (microtcp_shutdown sock_est101 SHUT_RDWR env_c6).1.state = .INVALID
    ∧ microtcp_state_t.INVALID ≠ microtcp_state_t.CLOSED := by
  refine ⟨by decide, by decide, by decide, by decide, by decide⟩

/-- Claim C7: a cumulative ACK purges every fully covered entry from the
unacknowledged set in one step.  Modelled from the spec (`microtcp_send` is
an empty stub in the source): membership after one purge is exactly
membership before with the segment's range not fully acknowledged, and in
the spec's example both [0,100) and [100,200) disappear on ACK 200. -/
theorem C7_cumulative_ack_purges_all :
    (∀ (unacked : List unacked_segment) (ack_number : Nat) (seg : unacked_segment),
        seg ∈ purge_acked unacked ack_number
          ↔ seg ∈ unacked ∧ ack_number < seg.seq_next)
    ∧ purge_acked
        [{ seq_first := 0, seq_next := 100, payload := List.replicate 100 7,
           sent_at := 0, retransmit_count := 0 },
         { seq_first := 100, seq_next := 200, payload := List.replicate 100 9,
           sent_at := 1, retransmit_count := 0 }] 200 = [] := by
  constructor
  · intro unacked ack_number seg
    simp [purge_acked, List.mem_filter]
  · decide

/-- Claim C8 counterexample: the claim says a checksum mismatch alone never
moves the connection to a failed state in any operation.  Here
`microtcp_shutdown`, given an otherwise acceptable ACK(seq=501, ack=101)
whose checksum check fails, sets the state to `INVALID`. -/
theorem C8_checksum_mismatch_is_fatal_counterexample :
    (microtcp_shutdown sock_est101 SHUT_RDWR env_c8).1.state = .INVALID := by
  decide

/-- Claim C8 as amended: a failed checksum check is fatal, not silently
discarded — `microtcp_connect`, `microtcp_accept` and `microtcp_shutdown`
each set the connection state to `INVALID` and return as soon as the checksum
check on a received segment fails. -/
theorem C8_checksum_failure_sets_invalid :
    (∀ (s : microtcp_sock_t) (a : sockaddr) (al : Nat) (env : connect_env),
        env.syn_sent_all = true → 0 < env.reply_ret →
        is_checksum_valid env.chk_junk env.recvbuf0 env.reply_ret.toNat = false →
        (microtcp_connect s a al env).1.state = .INVALID)
    ∧ (∀ (s : microtcp_sock_t) (env : accept_env),
        is_checksum_valid env.chk1_junk env.syn_buf env.syn_ret.toNat = false →
        (microtcp_accept s env).1.state = .INVALID)
    ∧ (∀ (s : microtcp_sock_t) (env : shutdown_env),
        env.finack_sent_all = true → 0 < env.ack_ret →
        is_checksum_valid env.chk1_junk env.ack_buf env.ack_ret.toNat = false →
        (microtcp_shutdown s SHUT_RDWR env).1.state = .INVALID) := by
  refine ⟨?_, ?_, ?_⟩
  · intro s a al env h1 h2 h3
    unfold microtcp_connect
    lift_lets
    extract_lets
    rw [if_neg (by simp [h1]), if_neg (by omega), if_pos h3]
  · intro s env h3
    unfold microtcp_accept
    lift_lets
    extract_lets
    rw [if_pos h3]
  · intro s env h1 h2 h3
    unfold microtcp_shutdown
    lift_lets
    extract_lets
    rw [if_pos rfl, if_neg (by simp [h1]), if_neg (by omega), if_pos h3]

/-- Witness for the amended claim C8: each operation run in a concrete
environment whose checksum check fails ends in `INVALID`. -/
theorem C8_checksum_failure_sets_invalid_witness :
    (microtcp_connect sock0 addr0 16 env_c8w1).1.state = .INVALID
    ∧ (microtcp_accept sock0 env_c8w2).1.state = .INVALID
    ∧ (microtcp_shutdown sock0 SHUT_RDWR env_c8w3).1.state = .INVALID :=
  ⟨C8_checksum_failure_sets_invalid.1 sock0 addr0 16 env_c8w1 rfl (by decide)
      (by decide),
   C8_checksum_failure_sets_invalid.2.1 sock0 env_c8w2 (by decide),
   C8_checksum_failure_sets_invalid.2.2 sock0 env_c8w3 rfl (by decide)
      (by decide)⟩

/-- Claim C9: `microtcp_connect`, `microtcp_accept` and `microtcp_shutdown`
return the connection's socket descriptor `socket->sd` on every path, success
and failure alike. -/
theorem C9_always_return_sd :
    ∀ (s : microtcp_sock_t) (a : sockaddr) (al : Nat) (e1 : connect_env)
      (e2 : accept_env) (how : Int) (e3 : shutdown_env),
      (microtcp_connect s a al e1).2 = s.sd
      ∧ (microtcp_accept s e2).2 = s.sd
      ∧ (microtcp_shutdown s how e3).2 = s.sd := by
  intro s a al e1 e2 how e3
  refine ⟨?_, ?_, ?_⟩
  · unfold microtcp_connect
    repeat' first
      | rfl
      | split
      | (lift_lets; extract_lets)
  · unfold microtcp_accept
    repeat' first
      | rfl
      | split
      | (lift_lets; extract_lets)
  · unfold microtcp_shutdown
    repeat' first
      | rfl
      | split
      | (lift_lets; extract_lets)

/-- Claim C10: `microtcp_shutdown` with any `how` other than `SHUT_RDWR` is a
no-op: the socket is returned with every field unchanged, paired with its
descriptor. -/
theorem C10_shutdown_other_how_noop :
    ∀ (s : microtcp_sock_t) (how : Int) (env : shutdown_env),
      how ≠ SHUT_RDWR → microtcp_shutdown s how env = (s, s.sd) := by
  intro s how env h
  unfold microtcp_shutdown
  rw [if_neg h]

/-- Witness for claim C10: `how = 0` (`SHUT_RD`) leaves the socket untouched. -/
theorem C10_shutdown_other_how_noop_witness :
    microtcp_shutdown sock0 0 env_c10 = (sock0, sock0.sd) :=
  C10_shutdown_other_how_noop sock0 0 env_c10 (by decide)
